import Mathlib

/- Shallow embedding of the SafeSpeakAI backend core:
   `backend/toxicity_analyzer.py` (class ToxicityAnalyzer) and
   `backend/text_rephraser.py` (class TextRephraser), with the threshold from
   `backend/config.py`.  Python floats are modelled as exact rationals and
   Python strings as `List Char` (`String` at the API surface).  The Python
   whitespace and word-character classes are modelled at their ASCII core. -/

namespace SafeSpeak

/-- ASCII whitespace: the characters that `str.strip()` and `str.split()`
treat as space. -/
def pySpace (c : Char) : Bool :=
  c == ' ' || c == '\t' || c == '\n' || c == '\x0d' || c == '\x0b' || c == '\x0c'

/-- Python `not text or not text.strip()`: the text is empty or
whitespace-only. -/
def wsOnly (xs : List Char) : Bool := xs.all pySpace

/-- Python `str.lower()` (ASCII). -/
def lower (xs : List Char) : List Char := xs.map Char.toLower

/-- Python `str.isupper()`: at least one cased character and no lower-case
cased character (ASCII model). -/
def pyIsUpper (xs : List Char) : Bool :=
  xs.any (fun c => c.isAlpha) && xs.all (fun c => !c.isLower)

/-- Python `str.capitalize()`: first character upper-cased, the rest
lower-cased. -/
def pyCapitalize (xs : List Char) : List Char :=
  match xs with
  | [] => []
  | c :: rest => c.toUpper :: rest.map Char.toLower

/-- `needle` occurs at the head of `hay`. -/
def beginsWith : List Char → List Char → Bool
  | [], _ => true
  | _ :: _, [] => false
  | a :: as, b :: bs => a == b && beginsWith as bs

/-- Python substring test `needle in hay`. -/
def containsSub (needle : List Char) : List Char → Bool
  | [] => beginsWith needle []
  | c :: rest => beginsWith needle (c :: rest) || containsSub needle rest

/-- The regex word-character class `\w` (ASCII model). -/
def isWordChar (c : Char) : Bool := c.isAlphanum || c == '_'

/-- Python `re.search(r'(.)\1{2,}', s) is not None`: some character other
than newline occurs at least three times consecutively (the wildcard `.`
does not match a newline). -/
def hasTripleRepeat : List Char → Bool
  | a :: b :: c :: rest => (a != '\n' && a == b && b == c) || hasTripleRepeat (b :: c :: rest)
  | _ => false

/-- Remove duplicates keeping first occurrences, relative to an accumulator
of already-seen elements. -/
def dedupSeen {α : Type} [DecidableEq α] : List α → List α → List α
  | _, [] => []
  | seen, x :: xs => if x ∈ seen then dedupSeen seen xs else x :: dedupSeen (x :: seen) xs

/-- Model of Python `list(set(l))`: duplicates removed.  CPython leaves the
order of a set unspecified; we fix the first-occurrence order. -/
def dedupKeepFirst {α : Type} [DecidableEq α] (xs : List α) : List α := dedupSeen [] xs

/- ===================== ToxicityAnalyzer ===================== -/

/-- One entry of `ToxicityAnalyzer.toxic_patterns`: a category name, its
keyword list and its severity. -/
structure Category where
  name : String
  keywords : List String
  severity : ℚ
deriving DecidableEq

/-- `ToxicityAnalyzer.toxic_patterns` (toxicity_analyzer.py, lines 16-41). -/
def toxic_patterns : List Category :=
  [ ⟨"hate_speech", ["hate", "despise", "detest", "loathe"], 0.9⟩,
    ⟨"insults", ["stupid", "idiot", "dumb", "moron", "fool", "imbecile"], 0.7⟩,
    ⟨"profanity", ["damn", "hell", "crap"], 0.5⟩,
    ⟨"aggressive", ["shut up", "get lost", "go away"], 0.8⟩,
    ⟨"derogatory", ["loser", "pathetic", "worthless", "useless", "garbage", "trash"], 0.8⟩,
    ⟨"offensive", ["disgusting", "ugly", "freak", "weird", "creep"], 0.7⟩ ]

/-- `CONFIDENCE_THRESHOLD` from config.py. -/
def CONFIDENCE_THRESHOLD : ℚ := 0.6

/-- The body of the keyword loop of `ToxicityAnalyzer.analyze` (lines 76-81)
for one category: append each matching keyword, append the category name per
match, and keep the running maximum severity. -/
def scanStep (tl : List Char) (acc : List String × List String × ℚ) (cat : Category) :
    List String × List String × ℚ :=
  cat.keywords.foldl
    (fun a kw =>
      if containsSub kw.data tl then (a.1 ++ [kw], a.2.1 ++ [cat.name], max a.2.2 cat.severity)
      else a)
    acc

/-- The complete pattern scan of `ToxicityAnalyzer.analyze`: found keywords,
matched categories (one entry per keyword match) and the running maximum
severity, starting from empty/0. -/
def scanPatterns (tl : List Char) : List String × List String × ℚ :=
  toxic_patterns.foldl (scanStep tl) ([], [], 0)

/-- `ToxicityAnalyzer._analyze_context` (lines 99-123): start from 1.0 and
multiply by 1.2 for a repeated character, by 1.3 for a long all-caps text,
and by 1.2 for at least two exclamation marks. -/
def analyze_context (t : List Char) : ℚ :=
  let m1 : ℚ := 1
  let m2 := if hasTripleRepeat t then m1 * 1.2 else m1
  let m3 := if t.length > 10 && pyIsUpper t then m2 * 1.3 else m2
  if t.count '!' ≥ 2 then m3 * 1.2 else m3

/-- `ToxicityAnalyzer._generate_suggestions` (lines 125-149): fixed advisory
strings for four of the six categories, in a fixed order. -/
def generate_suggestions (cats : List String) : List String :=
  (if cats.contains "hate_speech"
    then ["Consider expressing disagreement without using hateful language"] else []) ++
  (if cats.contains "insults"
    then ["Try focusing on the issue rather than personal attacks"] else []) ++
  (if cats.contains "aggressive"
    then ["A calmer tone might lead to better communication"] else []) ++
  (if cats.contains "derogatory"
    then ["Respectful language helps maintain positive relationships"] else [])

/-- The dictionary returned by `ToxicityAnalyzer.analyze`.  `originalText` is
an `Option` because the early return for empty/whitespace-only input
(lines 60-68) does not put that key into the dictionary. -/
structure Verdict where
  isToxic : Bool
  confidence : ℚ
  severity : ℚ
  keywords : List String
  categories : List String
  suggestions : List String
  originalText : Option String
deriving DecidableEq

/-- `ToxicityAnalyzer.analyze` (toxicity_analyzer.py, lines 50-97). -/
def analyze (text : String) : Verdict :=
  if wsOnly text.data then
    ⟨false, 0, 0, [], [], [], none⟩
  else
    let scan := scanPatterns (lower text.data)
    let adjusted := min (scan.2.2 * analyze_context text.data) 1
    let isTox := !scan.1.isEmpty && decide (CONFIDENCE_THRESHOLD ≤ adjusted)
    ⟨isTox, adjusted, adjusted, dedupKeepFirst scan.1, dedupKeepFirst scan.2.1,
      if isTox then generate_suggestions scan.2.1 else [], some text⟩

/- ===================== TextRephraser ===================== -/

/-- One token of a compiled phrase pattern: a required character or an
optional (`?`-quantified) character.  All characters are stored lower-case;
matching lower-cases the text (the rules carry `re.IGNORECASE`). -/
inductive Tok where
  | req : Char → Tok
  | opt : Char → Tok
deriving DecidableEq

/-- A literal run of required characters. -/
def reqs (s : String) : List Tok := s.data.map Tok.req

/-- One entry of `TextRephraser.phrase_rules`: a word-boundary-anchored
pattern (the `\b` anchors are implicit: every pattern starts and ends with a
word character) and its fixed replacement. -/
structure Rule where
  pattern : List Tok
  replacement : String
deriving DecidableEq

/-- `TextRephraser.phrase_rules` (text_rephraser.py, lines 15-118), in source
order.  `'?` and `n?` of the regexes become optional tokens. -/
def phrase_rules : List Rule :=
  [ ⟨reqs "you are stupid", "I disagree with your approach"⟩,
    ⟨reqs "you" ++ [Tok.opt '\''] ++ reqs "re stupid", "I see things differently"⟩,
    ⟨reqs "shut up", "I'd prefer if we could discuss this calmly"⟩,
    ⟨reqs "you" ++ [Tok.opt '\''] ++ reqs "re a" ++ [Tok.opt 'n'] ++ reqs " idiot",
      "I think there might be a misunderstanding"⟩,
    ⟨reqs "you are a" ++ [Tok.opt 'n'] ++ reqs " idiot",
      "I think there might be a misunderstanding"⟩,
    ⟨reqs "i hate you", "I'm frustrated with this situation"⟩,
    ⟨reqs "you" ++ [Tok.opt '\''] ++ reqs "re dumb",
      "I believe there's a better way to think about this"⟩,
    ⟨reqs "you are dumb", "I believe there's a better way to think about this"⟩,
    ⟨reqs "you" ++ [Tok.opt '\''] ++ reqs "re a loser",
      "I'm disappointed with how things turned out"⟩,
    ⟨reqs "you" ++ [Tok.opt '\''] ++ reqs "re pathetic",
      "I expected better from this situation"⟩,
    ⟨reqs "you" ++ [Tok.opt '\''] ++ reqs "re worthless",
      "I don't think this is working out"⟩,
    ⟨reqs "you" ++ [Tok.opt '\''] ++ reqs "re useless",
      "I think we need a different approach"⟩,
    ⟨reqs "that" ++ [Tok.opt '\''] ++ reqs "s garbage",
      "I don't think that's the best solution"⟩,
    ⟨reqs "that" ++ [Tok.opt '\''] ++ reqs "s trash", "I believe we can do better"⟩,
    ⟨reqs "you" ++ [Tok.opt '\''] ++ reqs "re disgusting",
      "I'm uncomfortable with this behavior"⟩,
    ⟨reqs "moron", "person with a different viewpoint"⟩,
    ⟨reqs "stupid", "unclear"⟩,
    ⟨reqs "idiot", "someone I disagree with"⟩,
    ⟨reqs "dumb", "not well thought out"⟩,
    ⟨reqs "hate", "strongly dislike"⟩ ]

/-- Match a token list against a text, case-insensitively; an optional token
is greedy with backtracking, as in the regex engine.  Returns the unconsumed
suffix on success. -/
def matchToks : List Tok → List Char → Option (List Char)
  | [], rest => some rest
  | Tok.req _ :: _, [] => none
  | Tok.req c :: ps, x :: xs => if x.toLower == c then matchToks ps xs else none
  | Tok.opt _ :: ps, [] => matchToks ps []
  | Tok.opt c :: ps, x :: xs =>
      if x.toLower == c then
        match matchToks ps xs with
        | some r => some r
        | none => matchToks ps (x :: xs)
      else matchToks ps (x :: xs)

/-- Try a `\b pattern \b` match at the current position.  `prevIsWord` says
whether the character just before this position (in the original text) is a
word character; the leading boundary needs it to be false and the trailing
boundary needs the next unconsumed character to not be a word character. -/
def matchHere (prevIsWord : Bool) (p : List Tok) (xs : List Char) : Option (List Char) :=
  if prevIsWord then none
  else
    match matchToks p xs with
    | some rest =>
        match rest with
        | [] => some []
        | c :: _ => if isWordChar c then none else some rest
    | none => none

/-- After a match that consumed `orig` down to `rest`, whether the character
preceding the next scan position (the last consumed character of the original
text) is a word character. -/
def lastConsumed (prev : Bool) (orig rest : List Char) : Bool :=
  match (orig.take (orig.length - rest.length)).getLast? with
  | some c => isWordChar c
  | none => prev

/-- `re.sub(pattern, rep, text)` together with the fact whether any match was
found (which is also what `re.search` reports): scan left to right, replace
every non-overlapping occurrence.  Structural recursion on a fuel that the
caller sets to the text length; every rule pattern consumes at least one
character per match, so the fuel never runs out. -/
def subAllF (rep : List Char) (p : List Tok) : Nat → Bool → List Char → List Char × Bool
  | 0, _, xs => (xs, false)
  | Nat.succ fuel, prev, xs =>
    match xs with
    | [] => ([], false)
    | x :: rest0 =>
      match matchHere prev p (x :: rest0) with
      | some rest =>
          let t := subAllF rep p fuel (lastConsumed prev (x :: rest0) rest) rest
          (rep ++ t.1, true)
      | none =>
          let t := subAllF rep p fuel (isWordChar x) rest0
          (x :: t.1, t.2)

/-- Replace all occurrences of the pattern and report whether any occurrence
existed. -/
def subAll (rep : List Char) (p : List Tok) (xs : List Char) : List Char × Bool :=
  subAllF rep p xs.length false xs

/-- One iteration of the rule loop of `TextRephraser.rephrase`
(lines 143-150): `re.search` then `re.sub` on the current text. -/
def applyRule (r : Rule) (t : List Char) : List Char × Bool :=
  subAll r.replacement.data r.pattern t

/-- Fold step of the rule loop: new text, and `modified` stays true once a
rule fired. -/
def ruleStep (acc : List Char × Bool) (r : Rule) : List Char × Bool :=
  let res := applyRule r acc.1
  (res.1, acc.2 || res.2)

/-- The whole sequential rule phase of `TextRephraser.rephrase`: the rules in
source order, each applied to the text produced by the earlier ones. -/
def applyRules (t : List Char) : List Char × Bool :=
  phrase_rules.foldl ruleStep (t, false)

/-- `re.sub(r'!{2,}', '.', s)` helper: `pending` counts the exclamation marks
of the current run. -/
def collapseBangsAux : Nat → List Char → List Char
  | pending, [] => if pending ≥ 2 then ['.'] else if pending = 1 then ['!'] else []
  | pending, c :: rest =>
      if c == '!' then collapseBangsAux (pending + 1) rest
      else (if pending ≥ 2 then ['.'] else if pending = 1 then ['!'] else []) ++
        (c :: collapseBangsAux 0 rest)

/-- `re.sub(r'!{2,}', '.', s)`: every maximal run of at least two exclamation
marks becomes a single period. -/
def collapseBangs (xs : List Char) : List Char := collapseBangsAux 0 xs

/-- `re.match(r'^(you|this|that)\b', s, re.IGNORECASE)` for one of the
alternative words. -/
def startsWordCI (w : String) (xs : List Char) : Bool :=
  match matchToks (reqs w) xs with
  | some [] => true
  | some (c :: _) => !isWordChar c
  | none => false

/-- The softening-trigger test of `_general_softening` (line 188): the text
begins with you/this/that at a word boundary, case-insensitively. -/
def startsHedge (xs : List Char) : Bool :=
  startsWordCI "you" xs || startsWordCI "this" xs || startsWordCI "that" xs

/-- `TextRephraser._general_softening` (text_rephraser.py, lines 168-191). -/
def general_softening (t : List Char) : List Char :=
  let s1 := collapseBangs t
  let s2 := if s1.length > 10 && pyIsUpper s1 then pyCapitalize s1 else s1
  if startsHedge s2 then ("Perhaps ".data ++ [s2.headD ' ' |>.toLower] ++ s2.tail) else s2

/-- Python `s.split()`: split on whitespace runs, dropping empty pieces;
`cur` accumulates the current word reversed. -/
def pySplitAux : List Char → List Char → List (List Char)
  | cur, [] => if cur.isEmpty then [] else [cur.reverse]
  | cur, c :: rest =>
      if pySpace c then
        (if cur.isEmpty then pySplitAux [] rest else cur.reverse :: pySplitAux [] rest)
      else pySplitAux (c :: cur) rest

/-- Python `s.split()`. -/
def pySplit (xs : List Char) : List (List Char) := pySplitAux [] xs

/-- Python `set(s.lower().split())`, as a duplicate-free list. -/
def wordSet (xs : List Char) : List (List Char) := dedupKeepFirst (pySplit (lower xs))

/-- `TextRephraser._calculate_confidence` (lines 193-213): 0.0 for an
unchanged text, otherwise twice the share of distinct original words that
disappeared, clamped to 1. -/
def calculate_confidence (original rephrased : List Char) : ℚ :=
  if original = rephrased then 0
  else
    min
      ((((wordSet original).filter (fun w => !((wordSet rephrased).contains w))).length : ℚ)
          / (max (wordSet original).length 1 : ℚ) * 2)
      1

/-- The dictionary returned by `TextRephraser.rephrase`.  `keywords` is an
`Option` because the early return for empty/whitespace-only input
(lines 131-137) does not put that key into the dictionary. -/
structure RephraseResult where
  original : String
  rephrased : String
  modified : Bool
  confidence : ℚ
  keywords : Option (List String)
deriving DecidableEq

/-- Python truthiness of the `keywords` argument: `None` and `[]` are false. -/
def kwTruthy : Option (List String) → Bool
  | none => false
  | some l => !l.isEmpty

/-- The (rephrased, modified) pair of `TextRephraser.rephrase` for non-empty
input: the sequential rule phase, then (only if no rule fired and a truthy
keywords argument was passed) the general softening of the original text. -/
def rephrasePair (t : List Char) (kw : Option (List String)) : List Char × Bool :=
  let ar := applyRules t
  if !ar.2 && kwTruthy kw then
    (general_softening t, decide (general_softening t ≠ t))
  else ar

/-- `TextRephraser.rephrase` (text_rephraser.py, lines 120-166). -/
def rephrase (text : String) (kw : Option (List String)) : RephraseResult :=
  if wsOnly text.data then
    ⟨text, text, false, 0, none⟩
  else
    ⟨text, String.mk (rephrasePair text.data kw).1, (rephrasePair text.data kw).2,
      calculate_confidence text.data (rephrasePair text.data kw).1, some (kw.getD [])⟩

/- ===================== claim-side definitions ===================== -/

/-- A category has at least one keyword occurring as a substring of the
lower-cased text (claim C2's notion of a matching category). -/
def catMatches (tl : List Char) (cat : Category) : Bool :=
  cat.keywords.any (fun kw => containsSub kw.data tl)

/-- Claim C2's maxSeverity: the maximum of the severities of the categories
with at least one matching keyword, 0 if none match. -/
def maxSeverity (tl : List Char) : ℚ :=
  (toxic_patterns.filter (catMatches tl)).foldl (fun m c => max m c.severity) 0

/-- Claim C2 as written: some character repeated at least three times
consecutively — any character, with no newline exclusion. -/
def hasTripleAnyChar : List Char → Bool
  | a :: b :: c :: rest => (a == b && b == c) || hasTripleAnyChar (b :: c :: rest)
  | _ => false

/-- Claim C2's context multiplier as written: the product of the factors of
the three independent conditions, reading "a character repeated three or more
times" as any character. -/
def contextMultiplierClaim (t : List Char) : ℚ :=
  (if hasTripleAnyChar t then (1.2 : ℚ) else 1) *
  (if t.length > 10 && pyIsUpper t then (1.3 : ℚ) else 1) *
  (if t.count '!' ≥ 2 then (1.2 : ℚ) else 1)

/-- The context multiplier as the code computes it: like
`contextMultiplierClaim` but the repeated-character test excludes newline
runs, because the regex wildcard does not match a newline. -/
def contextMultiplierFix (t : List Char) : ℚ :=
  (if hasTripleRepeat t then (1.2 : ℚ) else 1) *
  (if t.length > 10 && pyIsUpper t then (1.3 : ℚ) else 1) *
  (if t.count '!' ≥ 2 then (1.2 : ℚ) else 1)

/-- Claim C4's confidence formula as written: the denominator is the raw
word count of the original text (`pySplit`, duplicates counted). -/
def confidenceClaimed (o r : List Char) : ℚ :=
  if r = o then 0
  else
    min
      (2 * (((wordSet o).filter (fun w => !((wordSet r).contains w))).length : ℚ)
          / (max (pySplit o).length 1 : ℚ))
      1

/-- Claim C4 amended: the denominator is the number of distinct lower-cased
words of the original text. -/
def confidenceAmended (o r : List Char) : ℚ :=
  if r = o then 0
  else
    min
      (2 * (((wordSet o).filter (fun w => !((wordSet r).contains w))).length : ℚ)
          / (max (wordSet o).length 1 : ℚ))
      1

/-- A pattern whose first token is a required non-whitespace character; such
a pattern can never match at a whitespace character. -/
def headBlocksWs : List Tok → Bool
  | Tok.req c :: _ => !pySpace c
  | _ => false

/- ===================== helper lemmas ===================== -/

theorem pySpace_cases {x : Char} (h : pySpace x = true) :
    x = ' ' ∨ x = '\t' ∨ x = '\n' ∨ x = '\x0d' ∨ x = '\x0b' ∨ x = '\x0c' := by
  have h2 :
      ((((x = ' ' ∨ x = '\t') ∨ x = '\n') ∨ x = '\x0d') ∨ x = '\x0b') ∨ x = '\x0c' := by
    simpa [pySpace] using h
  tauto

theorem ws_toLower_ne {x c : Char} (hx : pySpace x = true) (hc : pySpace c = false) :
    (x.toLower == c) = false := by
  have h1 : x.toLower = x := by
    rcases pySpace_cases hx with rfl | rfl | rfl | rfl | rfl | rfl <;> rfl
  rw [h1, beq_eq_false_iff_ne]
  rintro rfl
  rw [hx] at hc
  exact absurd hc (by simp)

theorem ws_not_alpha {x : Char} (hx : pySpace x = true) : x.isAlpha = false := by
  rcases pySpace_cases hx with rfl | rfl | rfl | rfl | rfl | rfl <;> decide

theorem ws_ne_bang {x : Char} (hx : pySpace x = true) : (x == '!') = false := by
  rcases pySpace_cases hx with rfl | rfl | rfl | rfl | rfl | rfl <;> decide

theorem foldKw_sev (tl : List Char) (nm : String) (sv : ℚ) :
    ∀ (kws : List String) (acc : List String × List String × ℚ),
      (kws.foldl
          (fun a kw =>
            if containsSub kw.data tl then (a.1 ++ [kw], a.2.1 ++ [nm], max a.2.2 sv) else a)
          acc).2.2
        = if kws.any (fun kw => containsSub kw.data tl) then max acc.2.2 sv else acc.2.2 := by
  intro kws
  induction kws with
  | nil => intro acc; simp
  | cons k ks ih =>
      intro acc
      by_cases hk : containsSub k.data tl = true
      · simp only [List.foldl_cons, List.any_cons, hk, if_true, Bool.true_or, ih]
        split
        · rw [max_assoc, max_self]
        · rfl
      · have hk' : containsSub k.data tl = false := by
          exact Bool.not_eq_true _ ▸ Bool.eq_false_iff.mpr hk
        simp only [List.foldl_cons, List.any_cons, hk', if_false, Bool.false_or, ih,
          Bool.false_eq_true]

theorem scanStep_sev (tl : List Char) (cat : Category) (acc : List String × List String × ℚ) :
    (scanStep tl acc cat).2.2
      = if catMatches tl cat then max acc.2.2 cat.severity else acc.2.2 := by
  unfold scanStep catMatches
  exact foldKw_sev tl cat.name cat.severity cat.keywords acc

theorem scanFold_sev (tl : List Char) :
    ∀ (cats : List Category) (acc : List String × List String × ℚ),
      (cats.foldl (scanStep tl) acc).2.2
        = cats.foldl (fun m c => if catMatches tl c then max m c.severity else m) acc.2.2 := by
  intro cats
  induction cats with
  | nil => intro acc; rfl
  | cons c cs ih =>
      intro acc
      rw [List.foldl_cons, List.foldl_cons, ih, scanStep_sev]

theorem foldl_filter_max (p : Category → Bool) :
    ∀ (l : List Category) (b : ℚ),
      (l.filter p).foldl (fun m c => max m c.severity) b
        = l.foldl (fun m c => if p c then max m c.severity else m) b := by
  intro l
  induction l with
  | nil => intro b; rfl
  | cons c cs ih =>
      intro b
      by_cases hc : p c = true
      · simp [List.filter_cons, hc, ih]
      · have hc' : p c = false := by exact Bool.not_eq_true _ ▸ Bool.eq_false_iff.mpr hc
        simp [List.filter_cons, hc', ih]

theorem maxSev_eq (tl : List Char) : (scanPatterns tl).2.2 = maxSeverity tl := by
  rw [scanPatterns, scanFold_sev, maxSeverity, foldl_filter_max]

theorem analyze_context_eq (t : List Char) : analyze_context t = contextMultiplierFix t := by
  simp only [analyze_context, contextMultiplierFix]
  split_ifs <;> ring

theorem maxSevFold_nonneg :
    ∀ (l : List Category) (b : ℚ), 0 ≤ b → 0 ≤ l.foldl (fun m c => max m c.severity) b := by
  intro l
  induction l with
  | nil => intro b hb; exact hb
  | cons c cs ih => intro b hb; exact ih _ (le_trans hb (le_max_left _ _))

theorem maxSeverity_nonneg (tl : List Char) : 0 ≤ maxSeverity tl :=
  maxSevFold_nonneg _ 0 le_rfl

theorem analyze_context_nonneg (t : List Char) : 0 ≤ analyze_context t := by
  simp only [analyze_context]
  split_ifs <;> norm_num

theorem subAllF_not_fired (rep : List Char) (p : List Tok) :
    ∀ (fuel : Nat) (prev : Bool) (xs : List Char),
      (subAllF rep p fuel prev xs).2 = false → (subAllF rep p fuel prev xs).1 = xs := by
  intro fuel
  induction fuel with
  | zero => intro prev xs _; rfl
  | succ f ih =>
      intro prev xs h
      cases xs with
      | nil => rfl
      | cons x rest =>
          cases hm : matchHere prev p (x :: rest) with
          | some r =>
              simp only [subAllF, hm] at h
              exact Bool.noConfusion h
          | none =>
              simp only [subAllF, hm] at h ⊢
              rw [ih _ _ h]

theorem matchHere_ws_none {c : Char} (ps : List Tok) (prev : Bool) {x : Char} (rest : List Char)
    (hc : pySpace c = false) (hx : pySpace x = true) :
    matchHere prev (Tok.req c :: ps) (x :: rest) = none := by
  cases prev with
  | true => rfl
  | false =>
      simp only [matchHere, matchToks, ws_toLower_ne hx hc, Bool.false_eq_true, if_false,
        Bool.false_and]

theorem subAllF_ws_req (rep : List Char) {c : Char} (ps : List Tok) (hc : pySpace c = false) :
    ∀ (fuel : Nat) (prev : Bool) (xs : List Char), (∀ x ∈ xs, pySpace x = true) →
      subAllF rep (Tok.req c :: ps) fuel prev xs = (xs, false) := by
  intro fuel
  induction fuel with
  | zero => intro prev xs _; rfl
  | succ f ih =>
      intro prev xs hxs
      cases xs with
      | nil => rfl
      | cons x rest =>
          have hx : pySpace x = true := hxs x (by simp)
          have hm := matchHere_ws_none ps prev rest hc hx
          simp only [subAllF, hm]
          rw [ih _ rest (fun y hy => hxs y (by simp [hy]))]

theorem subAll_ws {t : List Char} {p : List Tok} (rep : List Char)
    (hp : headBlocksWs p = true) (h : ∀ x ∈ t, pySpace x = true) :
    subAll rep p t = (t, false) := by
  match p with
  | [] => simp [headBlocksWs] at hp
  | Tok.opt _ :: _ => simp [headBlocksWs] at hp
  | Tok.req c :: ps =>
      have hc : pySpace c = false := by
        have := hp
        simp only [headBlocksWs, Bool.not_eq_true'] at this
        exact this
      exact subAllF_ws_req rep ps hc t.length false t h

theorem applyRule_not_fired {r : Rule} {t : List Char} (h : (applyRule r t).2 = false) :
    (applyRule r t).1 = t :=
  subAllF_not_fired _ _ _ _ _ h

theorem rulesFold_not_fired :
    ∀ (rs : List Rule) (cur : List Char) (m : Bool),
      (rs.foldl ruleStep (cur, m)).2 = false →
      (rs.foldl ruleStep (cur, m)).1 = cur ∧ m = false := by
  intro rs
  induction rs with
  | nil => intro cur m h; exact ⟨rfl, h⟩
  | cons r rs ih =>
      intro cur m h
      rw [List.foldl_cons] at h ⊢
      simp only [ruleStep] at h ⊢
      obtain ⟨h3, h4⟩ := ih (applyRule r cur).1 (m || (applyRule r cur).2) h
      rcases Bool.or_eq_false_iff.mp h4 with ⟨hm, hf⟩
      refine ⟨?_, hm⟩
      rw [h3, applyRule_not_fired hf]

theorem applyRules_not_fired {t : List Char} (h : (applyRules t).2 = false) :
    (applyRules t).1 = t :=
  (rulesFold_not_fired phrase_rules t false h).1

theorem rulesFold_ws :
    ∀ (rs : List Rule), (∀ r ∈ rs, headBlocksWs r.pattern = true) →
      ∀ (cur : List Char) (m : Bool), (∀ x ∈ cur, pySpace x = true) →
      rs.foldl ruleStep (cur, m) = (cur, m) := by
  intro rs
  induction rs with
  | nil => intro _ cur m _; rfl
  | cons r rs ih =>
      intro hr cur m hcur
      rw [List.foldl_cons]
      have h1 : applyRule r cur = (cur, false) :=
        subAll_ws r.replacement.data (hr r (by simp)) hcur
      have h2 : ruleStep (cur, m) r = (cur, m) := by
        simp only [ruleStep, h1, Bool.or_false]
      rw [h2]
      exact ih (fun q hq => hr q (by simp [hq])) cur m hcur

theorem applyRules_ws {t : List Char} (h : wsOnly t = true) : applyRules t = (t, false) := by
  have hr : ∀ r ∈ phrase_rules, headBlocksWs r.pattern = true := by decide
  have ht : ∀ x ∈ t, pySpace x = true := by
    simpa [wsOnly, List.all_eq_true] using h
  exact rulesFold_ws phrase_rules hr t false ht

theorem collapseBangs_ws {xs : List Char} (h : ∀ x ∈ xs, pySpace x = true) :
    collapseBangs xs = xs := by
  unfold collapseBangs
  induction xs with
  | nil => rfl
  | cons c rest ih =>
      have hc := ws_ne_bang (h c (by simp))
      simp only [collapseBangsAux, hc, Bool.false_eq_true, if_false]
      rw [ih (fun y hy => h y (by simp [hy]))]
      rfl

theorem pyIsUpper_ws {xs : List Char} (h : ∀ x ∈ xs, pySpace x = true) :
    pyIsUpper xs = false := by
  have h1 : xs.any (fun c => c.isAlpha) = false := by
    simp only [List.any_eq_false]
    intro x hx
    simp [ws_not_alpha (h x hx)]
  simp [pyIsUpper, h1]

theorem startsWordCI_ws {c : Char} {cs : List Char} (w : String) {xs : List Char}
    (hww : w.data = c :: cs) (hc : pySpace c = false)
    (h : ∀ x ∈ xs, pySpace x = true) : startsWordCI w xs = false := by
  unfold startsWordCI reqs
  rw [hww]
  cases xs with
  | nil => rfl
  | cons x rest =>
      simp only [List.map_cons, matchToks, ws_toLower_ne (h x (by simp)) hc,
        Bool.false_eq_true, if_false]

theorem startsHedge_ws {xs : List Char} (h : ∀ x ∈ xs, pySpace x = true) :
    startsHedge xs = false := by
  unfold startsHedge
  rw [startsWordCI_ws "you" rfl (by decide) h, startsWordCI_ws "this" rfl (by decide) h,
    startsWordCI_ws "that" rfl (by decide) h]
  rfl

theorem general_softening_ws {xs : List Char} (h : ∀ x ∈ xs, pySpace x = true) :
    general_softening xs = xs := by
  simp only [general_softening, collapseBangs_ws h, pyIsUpper_ws h, Bool.and_false,
    Bool.false_eq_true, if_false, startsHedge_ws h]

theorem calc_conf_eq (o r : List Char) : calculate_confidence o r = confidenceAmended o r := by
  unfold calculate_confidence confidenceAmended
  rcases eq_or_ne o r with h | h
  · simp [h]
  · rw [if_neg h, if_neg (fun hh => h hh.symm)]
    congr 1
    ring

theorem rephrasePair_fired {t : List Char} (kw : Option (List String))
    (h : (applyRules t).2 = true) : rephrasePair t kw = applyRules t := by
  simp only [rephrasePair, h]
  rfl

theorem rephrasePair_soft {t : List Char} {kw : Option (List String)}
    (h : (applyRules t).2 = false) (hk : kwTruthy kw = true) :
    rephrasePair t kw = (general_softening t, decide (general_softening t ≠ t)) := by
  simp only [rephrasePair, h, hk]
  rfl

theorem rephrasePair_none {t : List Char} {kw : Option (List String)}
    (h : (applyRules t).2 = false) (hk : kwTruthy kw = false) :
    rephrasePair t kw = (t, false) := by
  simp only [rephrasePair, h, hk, Bool.and_false, Bool.false_eq_true, if_false]
  conv_rhs => rw [← applyRules_not_fired h, ← h]

theorem rephrase_not_ws (t : String) (kw : Option (List String)) (h : wsOnly t.data = false) :
    rephrase t kw =
      ⟨t, String.mk (rephrasePair t.data kw).1, (rephrasePair t.data kw).2,
        calculate_confidence t.data (rephrasePair t.data kw).1, some (kw.getD [])⟩ := by
  unfold rephrase
  rw [h]
  rfl

theorem analyze_eq (t : String) (h : wsOnly t.data = false) :
    analyze t =
      ⟨!(scanPatterns (lower t.data)).1.isEmpty &&
          decide (CONFIDENCE_THRESHOLD ≤
            min ((scanPatterns (lower t.data)).2.2 * analyze_context t.data) 1),
        min ((scanPatterns (lower t.data)).2.2 * analyze_context t.data) 1,
        min ((scanPatterns (lower t.data)).2.2 * analyze_context t.data) 1,
        dedupKeepFirst (scanPatterns (lower t.data)).1,
        dedupKeepFirst (scanPatterns (lower t.data)).2.1,
        if !(scanPatterns (lower t.data)).1.isEmpty &&
            decide (CONFIDENCE_THRESHOLD ≤
              min ((scanPatterns (lower t.data)).2.2 * analyze_context t.data) 1)
          then generate_suggestions (scanPatterns (lower t.data)).2.1 else [],
        some t⟩ := by
  unfold analyze
  rw [h]
  rfl

theorem analyze_severity (t : String) (h : wsOnly t.data = false) :
    (analyze t).severity =
      min ((scanPatterns (lower t.data)).2.2 * analyze_context t.data) 1 := by
  rw [analyze_eq t h]

/- ===================== claims ===================== -/

/-- C1 counterexample: on the empty text, the early return of
`ToxicityAnalyzer.analyze` contains no `originalText` key at all, so the
verdict's originalText is not the (echoed) input text claimed. -/
theorem C1_counterexample : (analyze "").originalText ≠ some "" := by decide

/-- C1 (amended): for every empty or whitespace-only input text, `analyze`
returns a verdict with isToxic=false, confidence=0, severity=0 and empty
keyword, category and suggestion collections — and the returned dictionary
has no originalText key (the early return omits it). -/
theorem C1_empty_verdict (t : String) (h : wsOnly t.data = true) :
    analyze t = ⟨false, 0, 0, [], [], [], none⟩ := by
  unfold analyze
  rw [h]
  rfl

/-- C1 witness: the amended claim instantiated at the one-space text. -/
theorem C1_witness :
    wsOnly (" ".data) = true ∧ analyze " " = ⟨false, 0, 0, [], [], [], none⟩ :=
  ⟨by decide, C1_empty_verdict " " (by decide)⟩

/-- C2 counterexample: on `"stupid\n\n\n"` the code reports severity 0.7,
but the claim's formula — which counts a newline repeated three times as
"a character repeated three or more times consecutively" — predicts
min(0.7 × 1.2, 1) = 0.84: the regex wildcard of `(.)\1{2,}` does not match
newline, so the ×1.2 factor does not fire in the code. -/
theorem C2_counterexample :
    (analyze "stupid\n\n\n").severity ≠
      min (maxSeverity (lower ("stupid\n\n\n".data)) *
        contextMultiplierClaim ("stupid\n\n\n".data)) 1 := by
  rw [analyze_severity "stupid\n\n\n" (by decide)]
  rw [show (scanPatterns (lower ("stupid\n\n\n".data))).2.2 = max 0 (0.7 : ℚ) from rfl]
  rw [show analyze_context ("stupid\n\n\n".data) = 1 from rfl]
  rw [show maxSeverity (lower ("stupid\n\n\n".data)) = max 0 (0.7 : ℚ) from rfl]
  rw [show contextMultiplierClaim ("stupid\n\n\n".data) = 1.2 * 1 * 1 from rfl]
  norm_num [min_def, max_def]

/-- C2 (amended): for every non-empty, non-whitespace-only text, the severity
reported by `analyze` equals min(maxSeverity × contextMultiplier, 1), where
maxSeverity is the maximum severity over the categories with at least one
matching keyword (0 if none) and the context multiplier is the product of
the factors of the three independent conditions on the original text —
a character other than newline repeated three or more times (×1.2), length
greater than 10 and entirely upper-case (×1.3), at least two exclamation
marks (×1.2). -/
theorem C2_severity_formula (t : String) (h : wsOnly t.data = false) :
    (analyze t).severity =
      min (maxSeverity (lower t.data) * contextMultiplierFix t.data) 1 := by
  rw [analyze_severity t h, maxSev_eq, analyze_context_eq]

/-- C2 witness: the amended severity formula instantiated at `"stupid"`. -/
theorem C2_witness :
    wsOnly ("stupid".data) = false ∧
      (analyze "stupid").severity =
        min (maxSeverity (lower ("stupid".data)) * contextMultiplierFix ("stupid".data)) 1 :=
  ⟨by decide, C2_severity_formula "stupid" (by decide)⟩

/-- C3 counterexample: for the empty text, the early return of
`TextRephraser.rephrase` has no keywords key at all, so it does not echo the
supplied keywords argument. -/
theorem C3_counterexample : (rephrase "" (some ["bad"])).keywords ≠ some ["bad"] := by
  decide

/-- C3 (amended): for every non-empty, non-whitespace-only text and every
keywords argument, the result of `rephrase` contains a keywords field equal
to the supplied keyword list (the empty list when no argument is supplied);
for empty or whitespace-only text the early return has no keywords field. -/
theorem C3_keywords_echo (t : String) (kw : Option (List String)) (h : wsOnly t.data = false) :
    (rephrase t kw).keywords = some (kw.getD []) := by
  rw [rephrase_not_ws t kw h]

/-- C3 witness: the amended claim instantiated at `"stupid"` with a supplied
keyword list. -/
theorem C3_witness : (rephrase "stupid" (some ["stupid"])).keywords = some ["stupid"] :=
  C3_keywords_echo "stupid" (some ["stupid"]) (by decide)

/-- C4 counterexample: on `"stupid stupid a b c"` (rephrased to
`"unclear unclear a b c"`), the code reports confidence
min(2 × 1 ⁄ 4, 1) = 1/2 — the denominator is the number of DISTINCT words —
while the claim's formula with the raw word count 5 as denominator predicts
min(2 × 1 ⁄ 5, 1) = 2/5. -/
theorem C4_counterexample :
    (rephrase "stupid stupid a b c" none).rephrased = "unclear unclear a b c" ∧
    (rephrase "stupid stupid a b c" none).confidence ≠
      confidenceClaimed ("stupid stupid a b c".data) ("unclear unclear a b c".data) := by
  constructor
  · decide
  · have hL : (rephrase "stupid stupid a b c" none).confidence
        = min ((((1 : ℕ) : ℚ)) / (((4 : ℕ) : ℚ)) * 2) 1 := rfl
    have hR : confidenceClaimed ("stupid stupid a b c".data) ("unclear unclear a b c".data)
        = min (2 * (((1 : ℕ) : ℚ)) / (((5 : ℕ) : ℚ))) 1 := rfl
    rw [hL, hR]
    norm_num [min_def]

/-- C4 (amended): for every text and keywords argument, the confidence of
`rephrase` is 0 when the rephrased text equals the original and otherwise
min(2 × |W(original) \ W(rephrased)| ⁄ max(|W(original)|, 1), 1), where W(s)
is the set of words of s after lower-casing and whitespace-splitting — the
denominator is the number of distinct words of the original text, not its
raw word count. -/
theorem C4_confidence_formula (t : String) (kw : Option (List String)) :
    (rephrase t kw).confidence = confidenceAmended t.data ((rephrase t kw).rephrased.data) := by
  cases hb : wsOnly t.data with
  | true =>
      unfold rephrase
      rw [hb]
      show (0 : ℚ) = confidenceAmended t.data t.data
      unfold confidenceAmended
      rw [if_pos rfl]
  | false =>
      rw [rephrase_not_ws t kw hb]
      show calculate_confidence t.data (rephrasePair t.data kw).1
          = confidenceAmended t.data (rephrasePair t.data kw).1
      exact calc_conf_eq _ _

/-- C4 witness: the amended confidence formula instantiated at `"stupid"`. -/
theorem C4_witness :
    (rephrase "stupid" none).confidence
      = confidenceAmended ("stupid".data) ((rephrase "stupid" none).rephrased.data) :=
  C4_confidence_formula "stupid" none

/-- C5: when any phrase rule fires, `rephrase` returns exactly the text
produced by applying the rules sequentially in their listed order (each rule
replacing all occurrences in the text already transformed by the earlier
rules) with modified=true; in particular rephrase("you are stupid") returns
"I disagree with your approach", modified=true and positive confidence. -/
theorem C5_sequential_rules :
    (∀ (t : String) (kw : Option (List String)), (applyRules t.data).2 = true →
        (rephrase t kw).rephrased = String.mk (applyRules t.data).1
        ∧ (rephrase t kw).modified = true)
    ∧ (rephrase "you are stupid" none).rephrased = "I disagree with your approach"
    ∧ (rephrase "you are stupid" none).modified = true
    ∧ 0 < (rephrase "you are stupid" none).confidence := by
  refine ⟨?_, by decide, by decide, ?_⟩
  · intro t kw h
    have hws : wsOnly t.data = false := by
      cases hb : wsOnly t.data with
      | false => rfl
      | true =>
          rw [applyRules_ws hb] at h
          exact Bool.noConfusion h
    rw [rephrase_not_ws t kw hws, rephrasePair_fired kw h]
    exact ⟨rfl, h⟩
  · have hc : (rephrase "you are stupid" none).confidence
        = min ((((3 : ℕ) : ℚ)) / (((3 : ℕ) : ℚ)) * 2) 1 := rfl
    rw [hc]
    norm_num [min_def]

/-- C5 witness: the general part instantiated at a text on which the "hate"
rule fires. -/
theorem C5_witness :
    (rephrase "I hate mondays" none).rephrased = String.mk (applyRules ("I hate mondays".data)).1
    ∧ (rephrase "I hate mondays" none).modified = true :=
  C5_sequential_rules.1 "I hate mondays" none (by decide)

/-- C6: if no phrase rule fires, then with a non-empty keywords argument
`rephrase` applies the general softening transform to the original text
(collapse runs of two or more exclamation marks into a period, then convert
long all-caps text to sentence case, then put "Perhaps " with a lower-cased
first letter before a text beginning with you/this/that at a word boundary)
and modified is true exactly when the softened text differs from the
original; with an absent or empty keywords argument the softening is not
applied and the text comes back unchanged. -/
theorem C6_general_softening (t : String) (kws : Option (List String))
    (h : (applyRules t.data).2 = false) :
    (kwTruthy kws = true →
        (rephrase t kws).rephrased = String.mk (general_softening t.data)
        ∧ ((rephrase t kws).modified = true ↔ general_softening t.data ≠ t.data))
    ∧ (kwTruthy kws = false →
        (rephrase t kws).rephrased = t ∧ (rephrase t kws).modified = false) := by
  cases hb : wsOnly t.data with
  | true =>
      have hsoft : general_softening t.data = t.data :=
        general_softening_ws (by simpa [wsOnly, List.all_eq_true] using hb)
      have hre : rephrase t kws = ⟨t, t, false, 0, none⟩ := by
        unfold rephrase
        rw [hb]
        rfl
      refine ⟨fun _ => ⟨?_, ?_⟩, fun _ => ?_⟩
      · rw [hre, hsoft]
      · rw [hre, hsoft]
        simp
      · rw [hre]
        exact ⟨rfl, rfl⟩
  | false =>
      refine ⟨fun hk => ?_, fun hk => ?_⟩
      · rw [rephrase_not_ws t kws hb, rephrasePair_soft h hk]
        refine ⟨rfl, ?_⟩
        show decide (general_softening t.data ≠ t.data) = true ↔
          general_softening t.data ≠ t.data
        simp
      · rw [rephrase_not_ws t kws hb, rephrasePair_none h hk]
        exact ⟨rfl, rfl⟩

/-- C6 witness: the softening branch instantiated at an all-caps text with
exclamation marks and a non-empty keyword list; no rule fires on it. -/
theorem C6_witness :
    (rephrase "THIS IS TERRIBLE!!!" (some ["terrible"])).rephrased
        = String.mk (general_softening ("THIS IS TERRIBLE!!!".data))
    ∧ ((rephrase "THIS IS TERRIBLE!!!" (some ["terrible"])).modified = true ↔
        general_softening ("THIS IS TERRIBLE!!!".data) ≠ "THIS IS TERRIBLE!!!".data) :=
  (C6_general_softening "THIS IS TERRIBLE!!!" (some ["terrible"]) (by decide)).1 (by decide)

/-- C7: the rephrase patterns are word-boundary anchored — whenever no rule
pattern matches anywhere in a text, `rephrase` without keywords returns the
text unchanged with modified=false; in particular "hate" occurs as a
substring of "hateful" (so the looser substring test of the analyzer would
see it), yet no rule fires on "hateful" and it comes back unchanged. -/
theorem C7_word_boundary :
    (∀ (t : String), (applyRules t.data).2 = false →
        (rephrase t none).rephrased = t ∧ (rephrase t none).modified = false)
    ∧ containsSub ("hate".data) (lower ("hateful".data)) = true
    ∧ (applyRules ("hateful".data)).2 = false
    ∧ rephrase "hateful" none = ⟨"hateful", "hateful", false, 0, some []⟩ := by
  refine ⟨?_, by decide, by decide, by decide⟩
  intro t h
  cases hb : wsOnly t.data with
  | true =>
      have hre : rephrase t none = ⟨t, t, false, 0, none⟩ := by
        unfold rephrase
        rw [hb]
        rfl
      rw [hre]
      exact ⟨rfl, rfl⟩
  | false =>
      rw [rephrase_not_ws t none hb, rephrasePair_none h (by decide)]
      exact ⟨rfl, rfl⟩

/-- C7 witness: the general part instantiated at a harmless text that no
rule matches. -/
theorem C7_witness :
    (rephrase "friendly greeting" none).rephrased = "friendly greeting"
    ∧ (rephrase "friendly greeting" none).modified = false :=
  C7_word_boundary.1 "friendly greeting" (by decide)

/-- C8: analyze("YOU ARE STUPID") matches exactly the insults category via
the keyword "stupid", the context multiplier is exactly the all-caps factor
1.3, and the verdict is toxic with confidence = severity =
min(0.7 × 1.3, 1) = 0.91. -/
theorem C8_all_caps_insult :
    analyze "YOU ARE STUPID" =
      ⟨true, 0.91, 0.91, ["stupid"], ["insults"],
        ["Try focusing on the issue rather than personal attacks"], some "YOU ARE STUPID"⟩
    ∧ analyze_context ("YOU ARE STUPID".data) = 1.3 := by
  constructor
  · rw [analyze_eq "YOU ARE STUPID" (by decide)]
    rw [show (scanPatterns (lower ("YOU ARE STUPID".data))).1 = ["stupid"] from rfl]
    rw [show (scanPatterns (lower ("YOU ARE STUPID".data))).2.1 = ["insults"] from rfl]
    rw [show (scanPatterns (lower ("YOU ARE STUPID".data))).2.2 = max 0 (0.7 : ℚ) from rfl]
    rw [show analyze_context ("YOU ARE STUPID".data) = 1 * 1.3 from rfl]
    have hq : min ((max 0 (0.7 : ℚ)) * (1 * 1.3)) 1 = 0.91 := by norm_num [min_def, max_def]
    rw [hq]
    have hthr : CONFIDENCE_THRESHOLD ≤ (0.91 : ℚ) := by norm_num [CONFIDENCE_THRESHOLD]
    rw [decide_eq_true hthr]
    rw [show dedupKeepFirst (["stupid"] : List String) = ["stupid"] from rfl]
    rw [show dedupKeepFirst (["insults"] : List String) = ["insults"] from rfl]
    rw [show generate_suggestions ["insults"]
        = ["Try focusing on the issue rather than personal attacks"] from rfl]
    rfl
  · rw [show analyze_context ("YOU ARE STUPID".data) = 1 * 1.3 from rfl]
    norm_num

/-- C9: for every input text, the verdict's confidence equals its severity
and both lie in [0, 1]. -/
theorem C9_confidence_severity_bounds (t : String) :
    (analyze t).confidence = (analyze t).severity
    ∧ 0 ≤ (analyze t).severity ∧ (analyze t).severity ≤ 1 := by
  cases hb : wsOnly t.data with
  | true =>
      have h0 : analyze t = ⟨false, 0, 0, [], [], [], none⟩ := by
        unfold analyze
        rw [hb]
        rfl
      rw [h0]
      norm_num
  | false =>
      rw [analyze_eq t hb]
      refine ⟨rfl, ?_, ?_⟩
      · show 0 ≤ min ((scanPatterns (lower t.data)).2.2 * analyze_context t.data) 1
        refine le_min ?_ (by norm_num)
        refine mul_nonneg ?_ (analyze_context_nonneg _)
        rw [maxSev_eq]
        exact maxSeverity_nonneg _
      · show min ((scanPatterns (lower t.data)).2.2 * analyze_context t.data) 1 ≤ 1
        exact min_le_right _ _

/-- C9 witness: the invariant instantiated at `"hi"`. -/
theorem C9_witness :
    (analyze "hi").confidence = (analyze "hi").severity
    ∧ 0 ≤ (analyze "hi").severity ∧ (analyze "hi").severity ≤ 1 :=
  C9_confidence_severity_bounds "hi"

/-- C10: there is an input — "disgusting" — on which `analyze` reports
isToxic=true while the suggestions list is empty, because the only matched
category (offensive) has no mapped advisory string. -/
theorem C10_toxic_without_suggestions :
    (analyze "disgusting").isToxic = true
    ∧ (analyze "disgusting").categories = ["offensive"]
    ∧ (analyze "disgusting").suggestions = [] := by
  rw [analyze_eq "disgusting" (by decide)]
  rw [show (scanPatterns (lower ("disgusting".data))).1 = ["disgusting"] from rfl]
  rw [show (scanPatterns (lower ("disgusting".data))).2.1 = ["offensive"] from rfl]
  rw [show (scanPatterns (lower ("disgusting".data))).2.2 = max 0 (0.7 : ℚ) from rfl]
  rw [show analyze_context ("disgusting".data) = 1 from rfl]
  have hq : min ((max 0 (0.7 : ℚ)) * 1) 1 = 0.7 := by norm_num [min_def, max_def]
  rw [hq]
  have hthr : CONFIDENCE_THRESHOLD ≤ (0.7 : ℚ) := by norm_num [CONFIDENCE_THRESHOLD]
  rw [decide_eq_true hthr]
  rw [show dedupKeepFirst (["offensive"] : List String) = ["offensive"] from rfl]
  rw [show generate_suggestions ["offensive"] = [] from rfl]
  exact ⟨rfl, rfl, rfl⟩

end SafeSpeak
